import Mathlib

/-!
Verification development for the `gopv` progress-tracking library.

The Go sources are shallowly embedded: Go `int`/`int64` values become `Int`
(no operation in the library approaches the 64-bit range, so wrap-around is
not modelled), Go `float64` arithmetic is idealised as exact rational
arithmetic over `ℚ`, `time.Time` becomes an absolute nanosecond count, and
`time.Duration` becomes an `Int` nanosecond count, matching Go's
representation.  Conversions from `float64` to integer types truncate toward
zero exactly as Go's conversion does (`Int.tdiv`).
-/

namespace Gopv

/-- Go `time.Duration`: a signed count of nanoseconds. -/
abbrev Duration := Int

/-- Nanoseconds in `time.Millisecond`. -/
def nsPerMillisecond : Duration := 1000000
/-- Nanoseconds in `time.Second`. -/
def nsPerSecond : Duration := 1000000000
/-- Nanoseconds in `time.Minute`. -/
def nsPerMinute : Duration := 60000000000

/-- Go `time.Time`, reduced to an absolute nanosecond count since the Unix
epoch (the library never inspects locations or monotonic clocks). -/
structure GoTime where
  ns : Int
deriving DecidableEq, Repr

/-- `t.Sub(u)` for Go times: the duration between two instants. -/
def GoTime.sub (t u : GoTime) : Duration := t.ns - u.ns

/-- Go conversion of a `float64` to an integer type: the fraction is
discarded, i.e. truncation toward zero.  On the exact rational `q` this is
`q.num.tdiv q.den`. -/
def ratTrunc (q : ℚ) : Int := q.num.tdiv (q.den : Int)

/-- Mathematical floor of a rational, computed on the numerator and
denominator (kept away from the `Int.floor` type-class projection so that
closed instances evaluate by `decide`). -/
def ratFloor (q : ℚ) : Int := (q.num).fdiv (q.den : Int)

/-- Go `Duration.Seconds()`: the duration as an exact number of seconds. -/
def Duration.seconds (d : Duration) : ℚ := (d : ℚ) / (nsPerSecond : ℚ)

/-- Go `Duration.Minutes()`: the duration as an exact number of minutes. -/
def Duration.minutes (d : Duration) : ℚ := (d : ℚ) / (nsPerMinute : ℚ)

/-- Go `lessThanHalf(x, y)` from `time.go`: whether `x+x < y`. -/
def lessThanHalf (x y : Int) : Bool := x + x < y

/-- Go `Duration.Round(m)` from `time.go`: rounds `d` to the nearest
multiple of `m`, half away from zero.  The overflow fall-backs of the Go
source are unreachable over unbounded integers and are dropped. -/
def durationRound (d m : Duration) : Duration :=
  if m ≤ 0 then d
  else
    let r := Int.tmod d m
    if d < 0 then
      let r := -r
      if lessThanHalf r m then d + r else d - m + r
    else
      if lessThanHalf r m then d - r else d + m - r

/-- Loop of Go's `fmtFrac` (`time.go`): strips `prec` decimal digits off
`v`, collecting them left of the accumulator and omitting trailing zeros. -/
def fmtFracLoop : Nat → Nat → Bool → List Char → List Char × Nat × Bool
  | v, 0, pr, acc => (acc, v, pr)
  | v, i + 1, pr, acc =>
    let digit := v % 10
    let pr' := pr || decide (digit ≠ 0)
    let acc' := if pr' then Char.ofNat (digit + 48) :: acc else acc
    fmtFracLoop (v / 10) i pr' acc'

/-- Go `fmtFrac` (`time.go`): the fractional tail `".ddd"` (trailing zeros
and a bare decimal point omitted) of `v` at precision `prec`, together with
the remaining integer part. -/
def fmtFrac (v : Nat) (prec : Nat) : List Char × Nat :=
  let (acc, v', pr) := fmtFracLoop v prec false []
  (if pr then '.' :: acc else acc, v')

/-- Go `Duration.String()` (`time.go`): renders a duration such as
`1.5s`, `2m3s`, `250ms` or `0s`. -/
def goDurationString (d : Duration) : String :=
  let u : Nat := d.natAbs
  let core : String :=
    if u < 1000000000 then
      if u = 0 then "0s"
      else if u < 1000 then toString u ++ "ns"
      else if u < 1000000 then
        let (fr, v) := fmtFrac u 3
        toString v ++ String.mk fr ++ "µs"
      else
        let (fr, v) := fmtFrac u 6
        toString v ++ String.mk fr ++ "ms"
    else
      let (fr, v) := fmtFrac u 9
      let s := toString (v % 60) ++ String.mk fr ++ "s"
      let v := v / 60
      if v = 0 then s
      else
        let s' := toString (v % 60) ++ "m" ++ s
        let v' := v / 60
        if v' = 0 then s' else toString v' ++ "h" ++ s'
  if d < 0 then "-" ++ core else core

/-- A calendar instant as rendered by Go's time formatting. -/
structure DateTime where
  year : Int
  month : Nat
  day : Nat
  hour : Nat
  minute : Nat
  second : Nat
deriving DecidableEq, Repr

/-- Civil-calendar date from a count of days since 1970-01-01 (proleptic
Gregorian), the standard era-based algorithm used to model Go's
`Time.Date()`. -/
def civilFromDays (z0 : Int) : Int × Nat × Nat :=
  let z := z0 + 719468
  let era := z.fdiv 146097
  let doe := (z - era * 146097).toNat
  let yoe := (doe - doe / 1460 + doe / 36524 - doe / 146096) / 365
  let doy := doe - (365 * yoe + yoe / 4 - yoe / 100)
  let mp := (5 * doy + 2) / 153
  let d := doy - (153 * mp + 2) / 5 + 1
  let m := if mp < 10 then mp + 3 else mp - 9
  (era * 400 + yoe + (if m ≤ 2 then 1 else 0), m, d)

/-- Calendar decomposition of a `GoTime` (UTC). -/
def toDateTime (t : GoTime) : DateTime :=
  let days := t.ns.fdiv 86400000000000
  let secOfDay := (t.ns - days * 86400000000000).toNat / 1000000000
  let ymd := civilFromDays days
  { year := ymd.1, month := ymd.2.1, day := ymd.2.2,
    hour := secOfDay / 3600, minute := secOfDay % 3600 / 60,
    second := secOfDay % 60 }

/-- Two-digit zero padding, as produced by Go layout codes `01`..`05`. -/
def pad2 (n : Nat) : String := if n < 10 then "0" ++ toString n else toString n

/-- Four-digit zero padding for years, as produced by Go layout code
`2006` (negative years do not occur in the modelled scenarios). -/
def pad4 (y : Int) : String :=
  let n := y.toNat
  if n < 10 then "000" ++ toString n
  else if n < 100 then "00" ++ toString n
  else if n < 1000 then "0" ++ toString n
  else toString n

/-- One step of Go's layout scanner for the layout codes that occur in the
library's single layout string `"2006-01-02 03:04:05"`: `2006` year,
`01` month, `02` day, `03` hour on the 12-hour clock (0 rendered as 12),
`04` minute, `05` second; any other character is copied literally.  Fueled
so that the definition is structurally recursive and kernel-evaluable. -/
def goFormatLayoutFuel (t : DateTime) : Nat → List Char → List Char
  | 0, cs => cs
  | fuel + 1, cs =>
    match cs with
    | [] => []
    | c :: rest =>
      if "2006".data.isPrefixOf (c :: rest) then
        (pad4 t.year).data ++ goFormatLayoutFuel t fuel (rest.drop 3)
      else if "01".data.isPrefixOf (c :: rest) then
        (pad2 t.month).data ++ goFormatLayoutFuel t fuel (rest.drop 1)
      else if "02".data.isPrefixOf (c :: rest) then
        (pad2 t.day).data ++ goFormatLayoutFuel t fuel (rest.drop 1)
      else if "15".data.isPrefixOf (c :: rest) then
        (pad2 t.hour).data ++ goFormatLayoutFuel t fuel (rest.drop 1)
      else if "03".data.isPrefixOf (c :: rest) then
        (pad2 (let h := t.hour % 12; if h = 0 then 12 else h)).data ++
          goFormatLayoutFuel t fuel (rest.drop 1)
      else if "04".data.isPrefixOf (c :: rest) then
        (pad2 t.minute).data ++ goFormatLayoutFuel t fuel (rest.drop 1)
      else if "05".data.isPrefixOf (c :: rest) then
        (pad2 t.second).data ++ goFormatLayoutFuel t fuel (rest.drop 1)
      else
        c :: goFormatLayoutFuel t fuel rest

/-- Go `t.Format(layout)` for the layout codes of this library. -/
def goFormat (t : DateTime) (layout : String) : String :=
  String.mk (goFormatLayoutFuel t layout.data.length layout.data)

/-- `report.Now.Format("2006-01-02 03:04:05")`: the timestamp rendering
used by `TextReporter.Report` (note the `03` code: 12-hour clock). -/
def goTimeFormat (t : GoTime) : String :=
  goFormat (toDateTime t) "2006-01-02 03:04:05"

/-- The `Report` snapshot structure (source: the reporter file). -/
structure Report where
  Now : GoTime
  StartedAt : GoTime
  DT : Duration
  Total : Int
  Done : Int
  Left : Int
  Ratio : ℚ
  PercentInt : Int
  PercentFloat : ℚ
  Elapsed : Duration
  ETA : Duration
  RPSAvg : ℚ
  RPSInst : ℚ
  RPMAvg : ℚ
deriving DecidableEq, Repr

/-- Go's zero value `Report{}`, returned on the defensive `total == 0`
path. -/
def emptyReport : Report :=
  { Now := ⟨0⟩, StartedAt := ⟨0⟩, DT := 0, Total := 0, Done := 0, Left := 0,
    Ratio := 0, PercentInt := 0, PercentFloat := 0, Elapsed := 0, ETA := 0,
    RPSAvg := 0, RPSInst := 0, RPMAvg := 0 }

namespace V1

/-- The `Progress` tracker state of `gopv.go` (the `reporter` interface
field, a runtime handle, is not part of the value state). -/
structure Progress where
  total : Int
  done : Int
  startedAt : GoTime
  reportTime : Duration
  lastReportedDone : Int
  lastReportedAt : GoTime
deriving DecidableEq, Repr

/-- `Progress.Add` of `gopv.go`: atomically adds `done` (a Go `int`, so
possibly negative) to the counter. -/
def Progress.add (p : Progress) (done : Int) : Progress :=
  { p with done := p.done + done }

/-- `Progress.Report` of `gopv.go`: the snapshot computation, together
with the deferred bookkeeping update of `lastReportedDone` and
`lastReportedAt` (skipped on the early `total == 0` return). -/
def Progress.report (p : Progress) (now : GoTime) : Report × Progress :=
  if p.total = 0 then (emptyReport, p)
  else
    let dt : Duration := now.sub p.lastReportedAt
    let done := p.done
    let ratio : ℚ := (done : ℚ) / (p.total : ℚ)
    let elapsed : Duration := now.sub p.startedAt
    let rps : ℚ := (done : ℚ) / (now.sub p.startedAt).seconds
    let eta : Duration :=
      if rps ≠ 0 then ratTrunc (((p.total - done : Int) : ℚ) / rps) * nsPerSecond else 0
    ({ Now := now, StartedAt := p.startedAt, DT := dt, Total := p.total,
       Done := done, Left := p.total - done, Ratio := ratio,
       PercentInt := ratTrunc (ratio * 100), PercentFloat := ratio * 100,
       Elapsed := elapsed, ETA := eta, RPSAvg := rps,
       RPSInst := ((done - p.lastReportedDone : Int) : ℚ) / dt.seconds,
       RPMAvg := (done : ℚ) / (now.sub p.startedAt).minutes },
     { p with lastReportedDone := done, lastReportedAt := now })

end V1

namespace V2

/-- The `Progress` tracker state of the channel-based source file (the
`reporter` interface field and the `doneCh` channel are runtime handles and
are not part of the value state). -/
structure Progress where
  total : Int
  done : Int
  startedAt : GoTime
  reportTime : Duration
  lastReportedDone : Int
  lastReportedAt : GoTime
deriving DecidableEq, Repr

/-- `Progress.Add` of the channel-based source: atomically adds `done`
(a Go `int`, so possibly negative) to the counter. -/
def Progress.add (p : Progress) (done : Int) : Progress :=
  { p with done := p.done + done }

/-- `Progress.Report` of the channel-based source: the snapshot
computation, together with the deferred bookkeeping update of
`lastReportedDone` and `lastReportedAt` (skipped on the early
`total == 0` return). -/
def Progress.report (p : Progress) (now : GoTime) : Report × Progress :=
  if p.total = 0 then (emptyReport, p)
  else
    let dt : Duration := now.sub p.lastReportedAt
    let done := p.done
    let ratio : ℚ := (done : ℚ) / (p.total : ℚ)
    let elapsed : Duration := now.sub p.startedAt
    let rps : ℚ := (done : ℚ) / (now.sub p.startedAt).seconds
    let eta : Duration :=
      if rps ≠ 0 then ratTrunc (((p.total - done : Int) : ℚ) / rps) * nsPerSecond else 0
    ({ Now := now, StartedAt := p.startedAt, DT := dt, Total := p.total,
       Done := done, Left := p.total - done, Ratio := ratio,
       PercentInt := ratTrunc (ratio * 100), PercentFloat := ratio * 100,
       Elapsed := elapsed, ETA := eta, RPSAvg := rps,
       RPSInst := ((done - p.lastReportedDone : Int) : ℚ) / dt.seconds,
       RPMAvg := (done : ℚ) / (now.sub p.startedAt).minutes },
     { p with lastReportedDone := done, lastReportedAt := now })

/-- An operation on a running tracker: an `Add(n)` call or a `Report()`
call at a given instant. -/
inductive Op where
  | add (n : Int)
  | rep (now : GoTime)
deriving DecidableEq, Repr

/-- Effect of one operation on the tracker state. -/
def applyOp (p : Progress) : Op → Progress
  | .add n => p.add n
  | .rep now => (p.report now).2

/-- Effect of a sequence of operations, first to last. -/
def runOps (p : Progress) : List Op → Progress
  | [] => p
  | op :: ops => runOps (applyOp p op) ops

/-- Whether an operation is an `Add` with a non-negative argument (every
`Report` qualifies). -/
def opNonNegAdd : Op → Bool
  | .add n => 0 ≤ n
  | .rep _ => true

end V2

/-- Go `strings.ReplaceAll(s, old, new)` over character lists, replacing
non-overlapping occurrences left to right.  Fueled (one unit per character
consumed) so that the definition is structurally recursive; the empty-old
insertion behaviour of Go is unreachable here because every pattern used by
the library is non-empty. -/
def replaceAllFuel (pat rep : List Char) : Nat → List Char → List Char
  | 0, s => s
  | fuel + 1, s =>
    match s with
    | [] => []
    | c :: rest =>
      if pat.isPrefixOf (c :: rest) && !pat.isEmpty then
        rep ++ replaceAllFuel pat rep fuel ((c :: rest).drop pat.length)
      else
        c :: replaceAllFuel pat rep fuel rest

/-- Go `strings.ReplaceAll(s, old, new)`. -/
def goReplaceAll (s old new : String) : String :=
  String.mk (replaceAllFuel old.data new.data s.data.length s.data)

/-- Whether `pat` occurs as a contiguous substring of `s`. -/
def containsSub (pat : List Char) : List Char → Bool
  | [] => pat.isEmpty
  | c :: rest => pat.isPrefixOf (c :: rest) || containsSub pat rest

/-- `TextReporter.compileLegend`: replaces each placeholder with the
corresponding positional format specifier, then substitutes the configured
float precision into the float specifiers (and, by the same pass, into any
occurrence of `\x7bfloat_precision\x7d` in the user's legend text). -/
def compileLegend (format0 : String) (floatPrecision : Int) : String :=
  let format := goReplaceAll format0 "{now}" "%[1]s"
  let format := goReplaceAll format "{started_at}" "%[2]s"
  let format := goReplaceAll format "{dt}" "%[3]s"
  let format := goReplaceAll format "{total}" "%[4]d"
  let format := goReplaceAll format "{done}" "%[5]d"
  let format := goReplaceAll format "{left}" "%[6]d"
  let format := goReplaceAll format "{ratio}" "%.{float_precision}[7]f"
  let format := goReplaceAll format "{percent_int}" "%[8]d"
  let format := goReplaceAll format "{percent_float}" "%.{float_precision}[9]f"
  let format := goReplaceAll format "{elapsed}" "%[10]s"
  let format := goReplaceAll format "{eta}" "%[11]s"
  let format := goReplaceAll format "{rps_avg}" "%.{float_precision}[12]f"
  let format := goReplaceAll format "{rps_inst}" "%.{float_precision}[13]f"
  let format := goReplaceAll format "{rpm}" "%.{float_precision}[14]f"
  let format := goReplaceAll format "{progress_bar}" "%[15]s"
  goReplaceAll format "{float_precision}" (toString floatPrecision)

/-- The fifteen placeholder patterns replaced by `compileLegend`, in
source order, together with the internal precision pattern substituted by
its final pass. -/
def legendTokens : List String :=
  ["{now}", "{started_at}", "{dt}", "{total}", "{done}", "{left}",
   "{ratio}", "{percent_int}", "{percent_float}", "{elapsed}", "{eta}",
   "{rps_avg}", "{rps_inst}", "{rpm}", "{progress_bar}",
   "{float_precision}"]

/-- A value handed to `fmt.Sprintf` by `TextReporter.Report`: a string
(the pre-formatted timestamps, the bar), a Go `int`, a `float64` idealised
as a rational, or a `time.Duration` (formatted through its `String()`
method by the `s` and `v` verbs). -/
inductive GoValue where
  | s (v : String)
  | i (v : Int)
  | f (v : ℚ)
  | d (v : Duration)
deriving DecidableEq, Repr

/-- Round a non-negative rational to the nearest integer, ties to even:
the rounding used when printing a binary floating-point value at a fixed
number of decimals. -/
def roundHalfEven (q : ℚ) : Int :=
  let f := ratFloor q
  let r := q - (f : ℚ)
  if r < 1/2 then f
  else if 1/2 < r then f + 1
  else if f % 2 = 0 then f else f + 1

/-- Left-pad a numeral with zeros to `width` digits. -/
def padZeros (s : String) (width : Nat) : String :=
  String.mk (List.replicate (width - s.length) '0') ++ s

/-- `fmt` `%.Pf` rendering of a `float64`, idealised on the exact rational
value: fixed `prec` decimals, rounded to nearest with ties to even, with a
leading minus sign for negative values. -/
def formatRatPrec (prec : Nat) (q : ℚ) : String :=
  let n := (roundHalfEven (|q| * (10 : ℚ) ^ prec)).toNat
  let ip := n / 10 ^ prec
  let fp := n % 10 ^ prec
  (if q < 0 then "-" else "") ++ toString ip ++
    (if prec = 0 then "" else "." ++ padZeros (toString fp) prec)

/-- Render one argument under a verb of the compiled legend: `s` for
strings, `d` for integers, `f` (with precision) for floats.  `none` on an
index/verb mismatch, which `compileLegend` never produces. -/
def applyVerb (args : List GoValue) (idx : Nat) (verb : Char) (prec : Nat) :
    Option (List Char) :=
  match args.get? (idx - 1), verb with
  | some (.s v), 's' => some v.data
  | some (.d v), 's' => some (goDurationString v).data
  | some (.i v), 'd' => some (toString v).data
  | some (.f v), 'f' => some (formatRatPrec prec v).data
  | _, _ => none

/-- Leading decimal digits of a character list, and the remainder. -/
def takeDigits : List Char → List Char × List Char
  | [] => ([], [])
  | c :: rest =>
    if '0' ≤ c ∧ c ≤ '9' then
      let (ds, rest') := takeDigits rest
      (c :: ds, rest')
    else ([], c :: rest)

/-- Numeric value of a digit list. -/
def digitsToNat (ds : List Char) : Nat :=
  ds.foldl (fun acc c => acc * 10 + (c.toNat - 48)) 0

/-- Parse one conversion specification right after a `%`: either `%%`, an
explicitly indexed `%[N]s` / `%[N]d`, or a precision form `%.P[N]f` — the
only shapes `compileLegend` emits.  Returns the rendered output, the
number of characters consumed, and whether an explicit `[N]` argument
index occurred (Go's `p.reordered` flag; `%%` leaves it untouched). -/
def parseSpec (args : List GoValue) (cs : List Char) :
    Option (List Char × Nat × Bool) :=
  match cs with
  | '%' :: _ => some (['%'], 1, false)
  | '[' :: rest =>
    let (ds, rest') := takeDigits rest
    (match ds, rest' with
     | _ :: _, ']' :: v :: _ =>
       (applyVerb args (digitsToNat ds) v 0).map
         (fun out => (out, ds.length + 3, true))
     | _, _ => none)
  | '.' :: rest =>
    let (ps, rest') := takeDigits rest
    (match ps, rest' with
     | _ :: _, '[' :: rest'' =>
       let (ds, rest3) := takeDigits rest''
       (match ds, rest3 with
        | _ :: _, ']' :: v :: _ =>
          (applyVerb args (digitsToNat ds) v (digitsToNat ps)).map
            (fun out => (out, ps.length + ds.length + 4, true))
        | _, _ => none)
     | _, _ => none)
  | _ => none

/-- Minimal `k` with `den ∣ 10^k` (the length of the terminating decimal
expansion, when one exists), searched up to 64 digits. -/
def decExpLen (den : Nat) : Option Nat :=
  (List.range 65).find? (fun k => 10 ^ k % den = 0)

/-- Go `%v` rendering of a `float64`, idealised on the exact rational: the
shortest terminating decimal, integers printed without a decimal point
(every float reached here lies in the plain-decimal regime of Go's
shortest-`g` format).  A rational with no finite decimal expansion has no
exact `float64` counterpart in this idealisation and falls back to a
`num/den` notation; no verified instance reaches that case. -/
def goVFloat (q : ℚ) : String :=
  match decExpLen q.den with
  | some k =>
    let n := q.num.natAbs * 10 ^ k / q.den
    (if q < 0 then "-" else "") ++
      (if k = 0 then toString n
       else toString (n / 10 ^ k) ++ "." ++ padZeros (toString (n % 10 ^ k)) k)
  | none => toString q.num ++ "/" ++ toString q.den

/-- The `reflect.TypeOf(arg).String()` name printed by Go's
too-many-arguments diagnostic for each argument the reporter passes. -/
def goExtraTypeName : GoValue → String
  | .s _ => "string"
  | .i _ => "int"
  | .f _ => "float64"
  | .d _ => "time.Duration"

/-- The `%v` rendering of an argument inside the too-many-arguments
diagnostic (`time.Duration` goes through its `String()` method). -/
def goExtraValue : GoValue → String
  | .s v => v
  | .i v => toString v
  | .f v => goVFloat v
  | .d v => goDurationString v

/-- Go `fmt`'s too-many-arguments suffix `%!(EXTRA type=value, ...)`,
listing every unused argument. -/
def goExtraSuffix (args : List GoValue) : String :=
  "%!(EXTRA " ++
    String.intercalate ", "
      (args.map (fun a => goExtraTypeName a ++ "=" ++ goExtraValue a)) ++ ")"

/-- The `fmt.Sprintf` format scan for a legend compiled by
`compileLegend`: ordinary characters are copied, `%`-specifications are
substituted, and the `reordered` flag records whether any explicit `[N]`
index occurred.  Fueled (one unit per `%` or ordinary character) for
structural recursion; a `%` that starts no recognised specification is
copied literally (Go would emit an error marker there, but `compileLegend`
output applied to `%`-free legends never reaches that case). -/
def sprintfFuel (args : List GoValue) : Nat → List Char → Bool → List Char × Bool
  | 0, cs, reordered => (cs, reordered)
  | fuel + 1, cs, reordered =>
    match cs with
    | [] => ([], reordered)
    | c :: rest =>
      if c = '%' then
        match parseSpec args rest with
        | some (out, k, usedIdx) =>
          let res := sprintfFuel args fuel (rest.drop k) (reordered || usedIdx)
          (out ++ res.1, res.2)
        | none =>
          let res := sprintfFuel args fuel rest reordered
          (c :: res.1, res.2)
      else
        let res := sprintfFuel args fuel rest reordered
        (c :: res.1, res.2)

/-- `fmt.Sprintf(format, args...)` for compiled legends.  After the scan,
Go appends the too-many-arguments suffix when `!p.reordered && argNum <
len(a)`; every specifier `compileLegend` emits carries an explicit index,
so the sequential argument counter never advances and the check reduces to
`!reordered && args ≠ []`. -/
def goSprintf (args : List GoValue) (format : String) : String :=
  let res := sprintfFuel args format.data.length format.data false
  if !res.2 && !args.isEmpty then String.mk res.1 ++ goExtraSuffix args
  else String.mk res.1

/-- The `TextReporter` state.  `output` is an opaque identifier for the
configured `io.Writer` sink and `writer` for the `bufio.Writer` wrapping it
(created lazily on first report); byte-level I/O is not modelled, the
rendered strings are returned instead. -/
structure TextReporter where
  legend : String
  floatPrecision : Int
  output : Nat
  pbWidth : Int
  legendCompiled : String
  writer : Option Nat
  lastLegendLength : Nat
deriving DecidableEq, Repr

/-- `TextReporterLegendDefault`. -/
def TextReporterLegendDefault : String :=
  "[{now}] - working ({done}/{total}) done {percent_int}%%, RPS {rps_avg}, elapsed {elapsed}, ETA {eta}\r"

/-- `TextReporterLegendProgressBar`. -/
def TextReporterLegendProgressBar : String :=
  "{progress_bar} {percent_int}%%, {rps_avg} RPS, {eta} ETA\r"

/-- The opaque sink identifier standing for `os.Stderr`. -/
def stderrSink : Nat := 0

/-- `NewTextReporter()`: default legend, float precision 2, output
`os.Stderr`, progress-bar width 80; runtime fields at their zero values. -/
def newTextReporter : TextReporter :=
  { legend := TextReporterLegendDefault, floatPrecision := 2,
    output := stderrSink, pbWidth := 80,
    legendCompiled := "", writer := none, lastLegendLength := 0 }

/-- `TextReporter.clone`: `cp := *r` — a shallow copy of the whole struct,
every field included (the struct comment asks for the runtime fields to be
excluded, but the code copies them too). -/
def TextReporter.clone (r : TextReporter) : TextReporter :=
  { legend := r.legend, floatPrecision := r.floatPrecision,
    output := r.output, pbWidth := r.pbWidth,
    legendCompiled := r.legendCompiled, writer := r.writer,
    lastLegendLength := r.lastLegendLength }

/-- `TextReporter.WithLegend`: clone, then set the legend on the clone. -/
def TextReporter.withLegend (r : TextReporter) (legend : String) : TextReporter :=
  { r.clone with legend := legend }

/-- `TextReporter.WithFloatPrecision`. -/
def TextReporter.withFloatPrecision (r : TextReporter) (floatPrecision : Int) :
    TextReporter :=
  { r.clone with floatPrecision := floatPrecision }

/-- `TextReporter.WithOutput`. -/
def TextReporter.withOutput (r : TextReporter) (output : Nat) : TextReporter :=
  { r.clone with output := output }

/-- `TextReporter.WithProgressBarWidth`. -/
def TextReporter.withProgressBarWidth (r : TextReporter) (width : Int) :
    TextReporter :=
  { r.clone with pbWidth := width }

/-- `TextReporter.renderProgressBar`: clamp the ratio below at 0, bail out
to the empty string when the width leaves no interior, truncate
`ratio * interior` to an integer fill count, clamp it above at the
interior width, and assemble `[`, `#`-fill, `-`-fill, `]`. -/
def TextReporter.renderProgressBar (r : TextReporter) (report : Report) : String :=
  let ratio := report.Ratio
  let ratio := if ratio < 0 then 0 else ratio
  let progressBarWidth := r.pbWidth - 2
  if progressBarWidth ≤ 0 then ""
  else
    let fillChars := ratTrunc (ratio * (progressBarWidth : ℚ))
    let fillChars := if fillChars > progressBarWidth then progressBarWidth else fillChars
    let fillSpaces := progressBarWidth - fillChars
    let fillSpaces := if fillSpaces < 0 then 0 else fillSpaces
    "[" ++ String.mk (List.replicate fillChars.toNat '#') ++
      String.mk (List.replicate fillSpaces.toNat '-') ++ "]"

/-- The ETA value as displayed: rounded to whole seconds and clamped to
zero when non-positive (`TextReporter.Report`, lines before the Sprintf). -/
def displayEta (d : Duration) : Duration :=
  let eta := durationRound d nsPerSecond
  if eta ≤ 0 then 0 else eta

/-- The fifteen positional arguments handed to `fmt.Sprintf` by
`TextReporter.Report`, in source order. -/
def reportArgs (r : TextReporter) (report : Report) : List GoValue :=
  [.s (goTimeFormat report.Now),
   .s (goTimeFormat report.StartedAt),
   .d (durationRound report.DT nsPerMillisecond),
   .i report.Total,
   .i report.Done,
   .i report.Left,
   .f report.Ratio,
   .i report.PercentInt,
   .f report.PercentFloat,
   .d (durationRound report.Elapsed nsPerSecond),
   .d (displayEta report.ETA),
   .f report.RPSAvg,
   .f report.RPSInst,
   .f report.RPMAvg,
   .s (r.renderProgressBar report)]

/-- The lazy first-use initialisation at the top of `TextReporter.Report`:
compile the legend and create the buffered writer if not yet done. -/
def TextReporter.prepared (r : TextReporter) : TextReporter :=
  if r.legendCompiled = "" then
    { r with legendCompiled := compileLegend r.legend r.floatPrecision,
             writer := some r.output }
  else r

/-- The formatted legend line produced by `TextReporter.Report` (the
string written before any line-clearing padding), for an already prepared
reporter. -/
def TextReporter.renderedLegend (r : TextReporter) (report : Report) : String :=
  goSprintf (reportArgs r report) r.legendCompiled

/-- `TextReporter.Report`: prepare on first use, render the legend,
append the space padding that erases a previously longer line, remember
the new line length.  Returns the full string written to the output. -/
def TextReporter.report (r0 : TextReporter) (report : Report) :
    String × TextReporter :=
  let r := r0.prepared
  let legend := r.renderedLegend report
  let lineLength := legend.length
  let padding :=
    if r.lastLegendLength > lineLength then
      String.mk (List.replicate (r.lastLegendLength - lineLength) ' ')
    else ""
  (legend ++ padding, { r with lastLegendLength := lineLength })

/-- Observable events of the scheduler task launched by `StartChan`. -/
inductive SchedEvent where
  | report
  | finalize
  | closeDone
deriving DecidableEq, Repr

/-- The body of the `StartChan` scheduler loop: each iteration either sees
the timer fire first (emit a report and loop) or sees the `done` signal and
returns.  `n` counts the timer wins before cancellation is observed. -/
def schedLoop : Nat → List SchedEvent
  | 0 => []
  | n + 1 => .report :: schedLoop n

/-- The full event trace of the goroutine launched by `StartChan`: one
immediate report, the loop, then the deferred block, which runs
`reporter.Finalize()` and then (by its own inner `defer`) closes the
tracker's done channel. -/
def startChanTrace (n : Nat) : List SchedEvent :=
  (.report :: schedLoop n) ++ [.finalize, .closeDone]

/-! Helper lemmas. -/

theorem stringMk_data (s : String) : String.mk s.data = s := by
  cases s
  rfl

theorem ratTrunc_eq_floor_of_nonneg (q : ℚ) (h : 0 ≤ q) : ratTrunc q = ⌊q⌋ := by
  have hnum : 0 ≤ q.num := Rat.num_nonneg.mpr h
  have hden : (0 : Int) ≤ (q.den : Int) := Int.ofNat_nonneg q.den
  rw [ratTrunc, Int.tdiv_eq_ediv hnum hden, Rat.floor_def]

theorem replaceAllFuel_of_not_contains (pat rep : List Char) (fuel : Nat) :
    ∀ s : List Char, containsSub pat s = false → replaceAllFuel pat rep fuel s = s := by
  induction fuel with
  | zero => intro s _; rfl
  | succ n ih =>
    intro s h
    match s with
    | [] => rfl
    | c :: rest =>
      rw [containsSub] at h
      rw [Bool.or_eq_false_iff] at h
      rw [replaceAllFuel, h.1]
      simp only [Bool.false_and, if_neg Bool.false_ne_true]
      rw [ih rest h.2]

theorem goReplaceAll_of_not_contains (s old new : String)
    (h : containsSub old.data s.data = false) : goReplaceAll s old new = s := by
  rw [goReplaceAll, replaceAllFuel_of_not_contains _ _ _ _ h, stringMk_data]

theorem sprintfFuel_of_no_percent (args : List GoValue) (fuel : Nat) :
    ∀ (s : List Char) (r : Bool), '%' ∉ s → sprintfFuel args fuel s r = (s, r) := by
  induction fuel with
  | zero => intro s r _; rfl
  | succ n ih =>
    intro s r h
    match s with
    | [] => rfl
    | c :: rest =>
      have hc : ¬(c = '%') := fun e => h (e ▸ List.mem_cons_self c rest)
      have hrest : '%' ∉ rest := fun e => h (List.mem_cons_of_mem c e)
      rw [sprintfFuel]
      simp only [if_neg hc]
      rw [ih rest r hrest]

theorem goSprintf_of_no_percent (args : List GoValue) (s : String)
    (h : '%' ∉ s.data) :
    goSprintf args s = if args.isEmpty then s else s ++ goExtraSuffix args := by
  rw [goSprintf]
  rw [sprintfFuel_of_no_percent args _ _ false h]
  cases args with
  | nil => simp [stringMk_data]
  | cons a rest => simp [stringMk_data]

theorem compileLegend_id_of_free (legend : String) (prec : Int)
    (hTok : ∀ tok ∈ legendTokens, containsSub tok.data legend.data = false) :
    compileLegend legend prec = legend := by
  rw [compileLegend,
    goReplaceAll_of_not_contains legend "{now}" _ (hTok "{now}" (by decide)),
    goReplaceAll_of_not_contains legend "{started_at}" _ (hTok "{started_at}" (by decide)),
    goReplaceAll_of_not_contains legend "{dt}" _ (hTok "{dt}" (by decide)),
    goReplaceAll_of_not_contains legend "{total}" _ (hTok "{total}" (by decide)),
    goReplaceAll_of_not_contains legend "{done}" _ (hTok "{done}" (by decide)),
    goReplaceAll_of_not_contains legend "{left}" _ (hTok "{left}" (by decide)),
    goReplaceAll_of_not_contains legend "{ratio}" _ (hTok "{ratio}" (by decide)),
    goReplaceAll_of_not_contains legend "{percent_int}" _ (hTok "{percent_int}" (by decide)),
    goReplaceAll_of_not_contains legend "{percent_float}" _ (hTok "{percent_float}" (by decide)),
    goReplaceAll_of_not_contains legend "{elapsed}" _ (hTok "{elapsed}" (by decide)),
    goReplaceAll_of_not_contains legend "{eta}" _ (hTok "{eta}" (by decide)),
    goReplaceAll_of_not_contains legend "{rps_avg}" _ (hTok "{rps_avg}" (by decide)),
    goReplaceAll_of_not_contains legend "{rps_inst}" _ (hTok "{rps_inst}" (by decide)),
    goReplaceAll_of_not_contains legend "{rpm}" _ (hTok "{rpm}" (by decide)),
    goReplaceAll_of_not_contains legend "{progress_bar}" _ (hTok "{progress_bar}" (by decide)),
    goReplaceAll_of_not_contains legend "{float_precision}" _
      (hTok "{float_precision}" (by decide))]

theorem V2.report_done_eq (p : V2.Progress) (now : GoTime) :
    ((p.report now).2).done = p.done := by
  rw [V2.Progress.report]
  split <;> rfl

theorem schedLoop_eq_replicate (n : Nat) :
    schedLoop n = List.replicate n SchedEvent.report := by
  induction n with
  | zero => rfl
  | succ k ih => rw [schedLoop, ih, List.replicate_succ]

theorem startChanTrace_eq (n : Nat) :
    startChanTrace n =
      List.replicate (n + 1) SchedEvent.report ++
        [SchedEvent.finalize, SchedEvent.closeDone] := by
  rw [startChanTrace, schedLoop_eq_replicate, ← List.replicate_succ]

/-! Claim theorems. -/

/-- C1 (counterexample): with `total = 50`, legend `"{percent_int}"` and
`Add(25)`, the rendered legend line is not the string `"25"` claimed by
the spec — 25 of 50 items is 50 percent. -/
theorem legend_percent_int_total50_add25_not_25 :
    ¬ (((newTextReporter.withLegend "{percent_int}").prepared).renderedLegend
        (V2.Progress.report
          ((⟨50, 0, ⟨0⟩, 1000000000, 0, ⟨0⟩⟩ : V2.Progress).add 25)
          ⟨1000000000⟩).1 = "25") := by
  with_unfolding_all decide

/-- C1 (amended): with `total = 50`, legend `"{percent_int}"` and
`Add(25)`, the rendered legend line (the string written before any
line-clear padding) is exactly `"50"`. -/
theorem legend_percent_int_total50_add25_renders_50 :
    ((newTextReporter.withLegend "{percent_int}").prepared).renderedLegend
        (V2.Progress.report
          ((⟨50, 0, ⟨0⟩, 1000000000, 0, ⟨0⟩⟩ : V2.Progress).add 25)
          ⟨1000000000⟩).1 = "50" := by
  with_unfolding_all decide

/-- C2 (counterexample): on a tracker with `total = 10`, `done = 4` and
one second elapsed, the average rate is 4/s and `(total-done)/rate = 1.5`
seconds, but the stored ETA is 1 second — the code truncates toward zero
where the claim demands rounding to nearest. -/
theorem eta_not_round_counterexample :
    (V2.Progress.report ⟨10, 4, ⟨0⟩, 1000000000, 0, ⟨0⟩⟩ ⟨1000000000⟩).1.RPSAvg ≠ 0 ∧
    ¬ ((V2.Progress.report ⟨10, 4, ⟨0⟩, 1000000000, 0, ⟨0⟩⟩ ⟨1000000000⟩).1.ETA =
        round (((10 - 4 : Int) : ℚ) /
            (V2.Progress.report ⟨10, 4, ⟨0⟩, 1000000000, 0, ⟨0⟩⟩ ⟨1000000000⟩).1.RPSAvg) *
          nsPerSecond) := by
  constructor
  · with_unfolding_all decide
  · rw [round_eq, Rat.floor_def]
    with_unfolding_all decide

/-- C2 (amended): the ETA of every snapshot is 0 whenever the average rate
is 0, and otherwise equals `(total - done) / rate` seconds truncated toward
zero (not rounded), with no internal clamping — the two closed conjuncts
exhibit a negative stored ETA for `done > total` and its clamping to zero
by the rendering layer only. -/
theorem eta_zero_or_trunc (p : V2.Progress) (now : GoTime) :
    ((V2.Progress.report p now).1.RPSAvg = 0 → (V2.Progress.report p now).1.ETA = 0) ∧
    ((V2.Progress.report p now).1.RPSAvg ≠ 0 →
      (V2.Progress.report p now).1.ETA =
        ratTrunc (((p.total - p.done : Int) : ℚ) / (V2.Progress.report p now).1.RPSAvg) *
          nsPerSecond) ∧
    (V2.Progress.report ⟨3, 9, ⟨0⟩, 1000000000, 0, ⟨0⟩⟩ ⟨3000000000⟩).1.ETA =
      -2000000000 ∧
    displayEta (-2000000000) = 0 := by
  refine ⟨?_, ?_, by with_unfolding_all decide, by decide⟩
  · intro h0
    by_cases h : p.total = 0
    · simp [V2.Progress.report, h, emptyReport]
    · simp only [V2.Progress.report, if_neg h] at h0 ⊢
      rw [if_neg (by simp [h0])]
  · intro h0
    by_cases h : p.total = 0
    · exfalso
      apply h0
      simp [V2.Progress.report, h, emptyReport]
    · simp only [V2.Progress.report, if_neg h] at h0 ⊢
      rw [if_pos h0]

/-- C2 (witness): at a concrete snapshot with non-zero average rate the
truncated-quotient formula holds. -/
theorem eta_zero_or_trunc_witness :
    (V2.Progress.report ⟨10, 4, ⟨0⟩, 1000000000, 0, ⟨0⟩⟩ ⟨1000000000⟩).1.RPSAvg ≠ 0 ∧
    (V2.Progress.report ⟨10, 4, ⟨0⟩, 1000000000, 0, ⟨0⟩⟩ ⟨1000000000⟩).1.ETA =
      ratTrunc (((10 - 4 : Int) : ℚ) /
          (V2.Progress.report ⟨10, 4, ⟨0⟩, 1000000000, 0, ⟨0⟩⟩ ⟨1000000000⟩).1.RPSAvg) *
        nsPerSecond :=
  ⟨by with_unfolding_all decide,
   (eta_zero_or_trunc ⟨10, 4, ⟨0⟩, 1000000000, 0, ⟨0⟩⟩ ⟨1000000000⟩).2.1
     (by with_unfolding_all decide)⟩

/-- C4 (counterexample): `Add(-1)` (a Go `int` argument, not validated)
drives `done` to `-1`; at `total = 3` the snapshot's integer percent is
`int(ratio*100) = -33` (truncation toward zero), not `floor(ratio*100)
= -34` as the claim states. -/
theorem percent_int_not_floor_counterexample :
    ¬ ((V2.Progress.report ((⟨3, 0, ⟨0⟩, 1000000000, 0, ⟨0⟩⟩ : V2.Progress).add (-1))
          ⟨1000000000⟩).1.PercentInt =
        ⌊(V2.Progress.report ((⟨3, 0, ⟨0⟩, 1000000000, 0, ⟨0⟩⟩ : V2.Progress).add (-1))
            ⟨1000000000⟩).1.Ratio * 100⌋) := by
  rw [Rat.floor_def]
  with_unfolding_all decide

/-- C4 (amended): on a tracker with `total > 0` every snapshot satisfies
`ratio = done/total`, `left = total - done` (negative when `done > total`),
and `percent_int = int(ratio*100)` truncated toward zero — which agrees
with `floor(ratio*100)` whenever `done ≥ 0`. -/
theorem snapshot_fields_formula (p : V2.Progress) (now : GoTime) (h : 0 < p.total) :
    (V2.Progress.report p now).1.Ratio = (p.done : ℚ) / (p.total : ℚ) ∧
    (V2.Progress.report p now).1.Left = p.total - p.done ∧
    (V2.Progress.report p now).1.PercentInt =
      ratTrunc ((V2.Progress.report p now).1.Ratio * 100) ∧
    (0 ≤ p.done →
      (V2.Progress.report p now).1.PercentInt =
        ⌊(V2.Progress.report p now).1.Ratio * 100⌋) := by
  have h0 : ¬ (p.total = 0) := by omega
  simp only [V2.Progress.report, if_neg h0]
  refine ⟨by trivial, by trivial, by trivial, ?_⟩
  intro hd
  apply ratTrunc_eq_floor_of_nonneg
  have hdq : (0 : ℚ) ≤ (p.done : ℚ) := by exact_mod_cast hd
  have htq : (0 : ℚ) ≤ (p.total : ℚ) := by exact_mod_cast h.le
  exact mul_nonneg (div_nonneg hdq htq) (by norm_num)

/-- C4 (witness): the formulas at the concrete snapshot `total = 50`,
`done = 25`. -/
theorem snapshot_fields_formula_witness :
    (0 : Int) < 50 ∧ (0 : Int) ≤ 25 ∧
    (V2.Progress.report ⟨50, 25, ⟨0⟩, 1000000000, 0, ⟨0⟩⟩ ⟨1000000000⟩).1.PercentInt =
      ⌊(V2.Progress.report ⟨50, 25, ⟨0⟩, 1000000000, 0, ⟨0⟩⟩ ⟨1000000000⟩).1.Ratio * 100⌋ :=
  ⟨by decide, by decide,
   (snapshot_fields_formula ⟨50, 25, ⟨0⟩, 1000000000, 0, ⟨0⟩⟩ ⟨1000000000⟩
       (by decide)).2.2.2 (by decide)⟩

/-- C8 (counterexample): `Add` accepts a negative argument (Go `int`,
unvalidated), so `done` is not monotone over arbitrary operation
sequences: after `Add(5)` it is 5, after `Add(5); Add(-3)` it is 2. -/
theorem done_not_monotone_counterexample :
    (V2.runOps (⟨5, 0, ⟨0⟩, 1000000000, 0, ⟨0⟩⟩ : V2.Progress) [V2.Op.add 5]).done = 5 ∧
    (V2.runOps (⟨5, 0, ⟨0⟩, 1000000000, 0, ⟨0⟩⟩ : V2.Progress)
        [V2.Op.add 5, V2.Op.add (-3)]).done = 2 ∧
    ¬ ((5 : Int) ≤ 2) := by
  refine ⟨?_, ?_, ?_⟩ <;> decide

/-- C8 (amended): over any sequence of `Add` calls with non-negative
arguments and `Report` calls, the `done` counter never decreases (and is
not clamped at `total`). -/
theorem done_monotone_nonneg_adds (p : V2.Progress) (ops : List V2.Op)
    (h : ops.all V2.opNonNegAdd = true) : p.done ≤ (V2.runOps p ops).done := by
  induction ops generalizing p with
  | nil => exact le_refl _
  | cons op rest ih =>
    rw [List.all_cons, Bool.and_eq_true] at h
    rw [V2.runOps]
    refine le_trans ?_ (ih (V2.applyOp p op) h.2)
    cases op with
    | add n =>
      have hn : (0 : Int) ≤ n := of_decide_eq_true h.1
      simp only [V2.applyOp, V2.Progress.add]
      omega
    | rep now => rw [V2.applyOp, V2.report_done_eq]

/-- C8 (witness): a concrete non-negative sequence, including a `Report`
call, does not decrease `done`. -/
theorem done_monotone_nonneg_adds_witness :
    ([V2.Op.add 3, V2.Op.rep ⟨7⟩].all V2.opNonNegAdd = true) ∧
    (⟨5, 0, ⟨0⟩, 1000000000, 0, ⟨0⟩⟩ : V2.Progress).done ≤
      (V2.runOps ⟨5, 0, ⟨0⟩, 1000000000, 0, ⟨0⟩⟩ [V2.Op.add 3, V2.Op.rep ⟨7⟩]).done :=
  ⟨by decide,
   done_monotone_nonneg_adds ⟨5, 0, ⟨0⟩, 1000000000, 0, ⟨0⟩⟩
     [V2.Op.add 3, V2.Op.rep ⟨7⟩] (by decide)⟩

/-- C10: the two `Progress.Report` implementations (the context-based file
and the channel-based file) are extensionally equal: from equal tracker
states and the same current time they produce identical snapshots and
identical bookkeeping updates. -/
theorem report_v1_v2_equivalent (tot don rt lrd : Int) (sAt lra now : GoTime) :
    (V1.Progress.report ⟨tot, don, sAt, rt, lrd, lra⟩ now).1 =
      (V2.Progress.report ⟨tot, don, sAt, rt, lrd, lra⟩ now).1 ∧
    ((V1.Progress.report ⟨tot, don, sAt, rt, lrd, lra⟩ now).2.total,
     (V1.Progress.report ⟨tot, don, sAt, rt, lrd, lra⟩ now).2.done,
     (V1.Progress.report ⟨tot, don, sAt, rt, lrd, lra⟩ now).2.startedAt,
     (V1.Progress.report ⟨tot, don, sAt, rt, lrd, lra⟩ now).2.reportTime,
     (V1.Progress.report ⟨tot, don, sAt, rt, lrd, lra⟩ now).2.lastReportedDone,
     (V1.Progress.report ⟨tot, don, sAt, rt, lrd, lra⟩ now).2.lastReportedAt) =
    ((V2.Progress.report ⟨tot, don, sAt, rt, lrd, lra⟩ now).2.total,
     (V2.Progress.report ⟨tot, don, sAt, rt, lrd, lra⟩ now).2.done,
     (V2.Progress.report ⟨tot, don, sAt, rt, lrd, lra⟩ now).2.startedAt,
     (V2.Progress.report ⟨tot, don, sAt, rt, lrd, lra⟩ now).2.reportTime,
     (V2.Progress.report ⟨tot, don, sAt, rt, lrd, lra⟩ now).2.lastReportedDone,
     (V2.Progress.report ⟨tot, don, sAt, rt, lrd, lra⟩ now).2.lastReportedAt) := by
  constructor <;>
    (simp only [V1.Progress.report, V2.Progress.report]; split_ifs <;> rfl)

/-- C5 (counterexample): at 13:00:00 UTC the reporter's timestamp
rendering shows `01`, not `13`, in the hour field: the layout string uses
Go's `03` code (12-hour clock), so the output is not the claimed 24-hour
format. -/
theorem timestamp_not_24h_counterexample :
    (toDateTime ⟨46800000000000⟩).hour = 13 ∧
    goTimeFormat ⟨46800000000000⟩ = "1970-01-01 01:00:00" ∧
    ("1970-01-01 01:00:00" : String) ≠ "1970-01-01 13:00:00" := by
  refine ⟨?_, ?_, ?_⟩ <;> decide

/-- C5 (amended): timestamps are rendered as
`YYYY-MM-DD hh:MM:SS` where `hh` is the hour on the 12-hour clock (hour
mod 12, with 0 shown as 12), zero-padded, with no AM/PM marker and no
timezone indicator. -/
theorem timestamp_format_twelve_hour (t : GoTime) :
    goTimeFormat t =
      pad4 (toDateTime t).year ++ "-" ++ pad2 (toDateTime t).month ++ "-" ++
        pad2 (toDateTime t).day ++ " " ++
        pad2 (if (toDateTime t).hour % 12 = 0 then 12 else (toDateTime t).hour % 12) ++
        ":" ++ pad2 (toDateTime t).minute ++ ":" ++ pad2 (toDateTime t).second := by
  apply String.ext
  show goFormatLayoutFuel (toDateTime t) 19 "2006-01-02 03:04:05".data = _
  simp only [String.data_append, List.append_assoc]
  rw [show ((pad2 (toDateTime t).second).data : List Char) =
        (pad2 (toDateTime t).second).data ++ [] from (List.append_nil _).symm]
  rfl

/-- C6 (code-bug evaluation): `clone` copies the whole struct, runtime
fields included, although the struct comment says they "should not be
copied in clone()".  After a first report has compiled the legend,
`WithLegend("{total}")` returns a reporter that still carries the stale
compiled legend (non-empty, so it is never recompiled) and therefore keeps
rendering the old `{done}` field: `"7"` instead of `"20"`. -/
theorem clone_copies_runtime_state :
    (((newTextReporter.withLegend "{done}").report
        { emptyReport with Total := 20, Done := 5 }).2.legendCompiled = "%[5]d") ∧
    ((((newTextReporter.withLegend "{done}").report
        { emptyReport with Total := 20, Done := 5 }).2.withLegend "{total}").legend =
      "{total}") ∧
    ((((newTextReporter.withLegend "{done}").report
        { emptyReport with Total := 20, Done := 5 }).2.withLegend "{total}").legendCompiled =
      "%[5]d") ∧
    ¬ ((((newTextReporter.withLegend "{done}").report
        { emptyReport with Total := 20, Done := 5 }).2.withLegend "{total}").legendCompiled =
      "") ∧
    (((((newTextReporter.withLegend "{done}").report
          { emptyReport with Total := 20, Done := 5 }).2.withLegend "{total}").prepared).renderedLegend
        { emptyReport with Total := 20, Done := 7 } = "7") ∧
    ("7" : String) ≠ "20" := by
  with_unfolding_all decide

/-- C9 (counterexample): the brace-delimited text `\x7bfloat_precision\x7d`
is not one of the fifteen placeholders, yet it does not pass through to the
rendered output literally: the final compilation pass substitutes the
configured float precision, so the legend `"{done}={float_precision}"`
compiles to `"%[5]d=2"` (carrying an explicit argument index, so Go's
Sprintf appends no too-many-arguments suffix) and renders as `"0=2"` on the
zero snapshot — not as the claimed literal `"0={float_precision}"`. -/
theorem float_precision_not_passthrough :
    ((newTextReporter.withLegend "{done}={float_precision}").prepared).renderedLegend
        emptyReport = "0=2" ∧
    ("0=2" : String) ≠ "0={float_precision}" := by
  with_unfolding_all decide

/-- C9 (amended): legend compilation recognizes exactly the fifteen listed
placeholders, order-independently, mapping each to its positional format
specifier (float ones carrying the configured precision); in addition the
internal token `\x7bfloat_precision\x7d` is substituted with the precision
digits by the final compilation pass.  Any legend containing none of these
sixteen patterns survives compilation unchanged, and — when it also
contains no percent character — is copied to the rendered output verbatim,
followed by Go fmt's too-many-arguments suffix `%!(EXTRA type=value, ...)`
whenever arguments are supplied (the compiled legend then contains no
explicitly indexed specifier, and the reporter always passes fifteen
arguments), so such legends do not render character-for-character equal to
themselves. -/
theorem legend_tokens_recognized_passthrough :
    compileLegend "{now}" 2 = "%[1]s" ∧
    compileLegend "{started_at}" 2 = "%[2]s" ∧
    compileLegend "{dt}" 2 = "%[3]s" ∧
    compileLegend "{total}" 2 = "%[4]d" ∧
    compileLegend "{done}" 2 = "%[5]d" ∧
    compileLegend "{left}" 2 = "%[6]d" ∧
    compileLegend "{ratio}" 2 = "%.2[7]f" ∧
    compileLegend "{percent_int}" 2 = "%[8]d" ∧
    compileLegend "{percent_float}" 2 = "%.2[9]f" ∧
    compileLegend "{elapsed}" 2 = "%[10]s" ∧
    compileLegend "{eta}" 2 = "%[11]s" ∧
    compileLegend "{rps_avg}" 2 = "%.2[12]f" ∧
    compileLegend "{rps_inst}" 2 = "%.2[13]f" ∧
    compileLegend "{rpm}" 2 = "%.2[14]f" ∧
    compileLegend "{progress_bar}" 2 = "%[15]s" ∧
    compileLegend "{done}/{total}" 2 = "%[5]d/%[4]d" ∧
    compileLegend "{total}/{done}" 2 = "%[4]d/%[5]d" ∧
    (∀ (legend : String) (prec : Int),
      (∀ tok ∈ legendTokens, containsSub tok.data legend.data = false) →
      compileLegend legend prec = legend) ∧
    (∀ (legend : String) (args : List GoValue) (prec : Int),
      (∀ tok ∈ legendTokens, containsSub tok.data legend.data = false) →
      '%' ∉ legend.data →
      goSprintf args (compileLegend legend prec) =
        if args.isEmpty then legend else legend ++ goExtraSuffix args) := by
  repeat' apply And.intro
  all_goals try decide
  · exact compileLegend_id_of_free
  · intro legend args prec hTok hPct
    rw [compileLegend_id_of_free legend prec hTok]
    exact goSprintf_of_no_percent args legend hPct

/-- C9 (witness): a concrete legend with an unrecognized brace token and no
percent sign survives the compile-and-render pipeline verbatim, with the
too-many-arguments suffix appended for the unused argument. -/
theorem legend_tokens_recognized_passthrough_witness :
    goSprintf [GoValue.i 7] (compileLegend "copying {files} to disk" 2) =
      "copying {files} to disk" ++ goExtraSuffix [GoValue.i 7] :=
  legend_tokens_recognized_passthrough.2.2.2.2.2.2.2.2.2.2.2.2.2.2.2.2.2.2
    "copying {files} to disk" [GoValue.i 7] 2 (by decide) (by decide)

/-- C7: on every exit path of the `StartChan` scheduler loop (any number
`n` of timer ticks before the cancellation signal is observed), the trace
contains exactly one `Finalize` call and exactly one closing of the done
channel, and every occurrence of the done-channel close is preceded by the
completed `Finalize`. -/
theorem finalize_once_before_done (n : Nat) :
    (startChanTrace n).count SchedEvent.finalize = 1 ∧
    (startChanTrace n).count SchedEvent.closeDone = 1 ∧
    ∀ j : Nat, (startChanTrace n)[j]? = some SchedEvent.closeDone →
      ∃ i : Nat, i < j ∧ (startChanTrace n)[i]? = some SchedEvent.finalize := by
  refine ⟨?_, ?_, ?_⟩
  · rw [startChanTrace_eq]
    simp [List.count_append, List.count_replicate, List.count_cons]
  · rw [startChanTrace_eq]
    simp [List.count_append, List.count_replicate, List.count_cons]
  · intro j hj
    rw [startChanTrace_eq] at hj
    rcases lt_or_le j (n + 1) with hlt | hge
    · exfalso
      rw [List.getElem?_append_left (by simpa using hlt), List.getElem?_replicate,
        if_pos hlt] at hj
      exact absurd hj (by simp)
    · refine ⟨n + 1, ?_, ?_⟩
      · rw [List.getElem?_append_right (by simpa using hge)] at hj
        rw [List.length_replicate] at hj
        cases hsub : j - (n + 1) with
        | zero =>
          rw [hsub] at hj
          exact absurd hj (by simp)
        | succ k =>
          cases k with
          | zero => omega
          | succ m =>
            rw [hsub] at hj
            simp at hj
      · rw [startChanTrace_eq, List.getElem?_append_right (by simp)]
        simp

/-- C7 (witness): in the concrete trace with two timer ticks, the
done-channel close at index 4 is preceded by the `Finalize` call. -/
theorem finalize_once_before_done_witness :
    (startChanTrace 2)[4]? = some SchedEvent.closeDone ∧
    ∃ i : Nat, i < 4 ∧ (startChanTrace 2)[i]? = some SchedEvent.finalize :=
  ⟨by decide, (finalize_once_before_done 2).2.2 4 (by decide)⟩

/-- C3: for every configured width and snapshot ratio the rendered bar is
`[` + `#`×fillChars + `-`×(width-2-fillChars) + `]` with
`fillChars = floor(ratio·(width-2))` clamped to `[0, width-2]` after the
ratio is clamped below at 0, and the empty string when `width ≤ 2`;
in particular width 10 with ratio 1/2 gives `[####----]`, a non-positive
ratio gives an all-`-` interior, a ratio ≥ 1 an all-`#` interior. -/
theorem progress_bar_spec :
    (∀ (w : Int) (ratio : ℚ),
      TextReporter.renderProgressBar { newTextReporter with pbWidth := w }
          { emptyReport with Ratio := ratio } =
        (if w ≤ 2 then ""
         else
           "[" ++
             String.mk (List.replicate
               (min (max ⌊max ratio 0 * ((w - 2 : Int) : ℚ)⌋ 0) (w - 2)).toNat '#') ++
             String.mk (List.replicate
               ((w - 2) - min (max ⌊max ratio 0 * ((w - 2 : Int) : ℚ)⌋ 0) (w - 2)).toNat '-') ++
             "]")) ∧
    TextReporter.renderProgressBar { newTextReporter with pbWidth := 10 }
        { emptyReport with Ratio := 1/2 } = "[####----]" ∧
    TextReporter.renderProgressBar { newTextReporter with pbWidth := 10 }
        { emptyReport with Ratio := -1/2 } = "[--------]" ∧
    TextReporter.renderProgressBar { newTextReporter with pbWidth := 10 }
        { emptyReport with Ratio := 0 } = "[--------]" ∧
    TextReporter.renderProgressBar { newTextReporter with pbWidth := 10 }
        { emptyReport with Ratio := 3/2 } = "[########]" ∧
    TextReporter.renderProgressBar { newTextReporter with pbWidth := 10 }
        { emptyReport with Ratio := 1 } = "[########]" ∧
    TextReporter.renderProgressBar { newTextReporter with pbWidth := 2 }
        { emptyReport with Ratio := 1/2 } = "" := by
  refine ⟨?_, by with_unfolding_all decide, by with_unfolding_all decide,
    by with_unfolding_all decide, by with_unfolding_all decide,
    by with_unfolding_all decide, by with_unfolding_all decide⟩
  intro w ratio
  simp only [TextReporter.renderProgressBar]
  by_cases hw : w - 2 ≤ 0
  · rw [if_pos hw, if_pos (by omega : w ≤ 2)]
  · rw [if_neg hw, if_neg (by omega : ¬ w ≤ 2)]
    have hw2 : (0 : Int) < w - 2 := by omega
    have hratio : (if ratio < 0 then (0 : ℚ) else ratio) = max ratio 0 := by
      rcases lt_or_le ratio 0 with h | h
      · rw [if_pos h, max_eq_right h.le]
      · rw [if_neg (not_lt.mpr h), max_eq_left h]
    rw [hratio]
    have hprod : (0 : ℚ) ≤ max ratio 0 * ((w - 2 : Int) : ℚ) :=
      mul_nonneg (le_max_right _ _) (by exact_mod_cast hw2.le)
    rw [ratTrunc_eq_floor_of_nonneg _ hprod]
    have hfl : 0 ≤ ⌊max ratio 0 * ((w - 2 : Int) : ℚ)⌋ := Int.floor_nonneg.mpr hprod
    have hclamp : (if ⌊max ratio 0 * ((w - 2 : Int) : ℚ)⌋ > w - 2 then w - 2
        else ⌊max ratio 0 * ((w - 2 : Int) : ℚ)⌋) =
        min (max ⌊max ratio 0 * ((w - 2 : Int) : ℚ)⌋ 0) (w - 2) := by
      rw [max_eq_left hfl]
      rcases le_or_lt ⌊max ratio 0 * ((w - 2 : Int) : ℚ)⌋ (w - 2) with h | h
      · rw [if_neg (not_lt.mpr h), min_eq_left h]
      · rw [if_pos h, min_eq_right h.le]
    rw [hclamp]
    rw [if_neg (not_lt.mpr (Int.sub_nonneg.mpr (min_le_right _ _)))]

end Gopv
